import Mathlib

/-!
Shallow embedding of `examples/mavlink_direct/sensor_rate_monitor.cpp`.

The program subscribes to all MAVLink messages, filters them against a fixed
whitelist of four monitored message names, keeps per-name counts and last-seen
times in two `std::map`s guarded by a mutex, and renders a dashboard table once
per second.  We model the two `std::map<std::string, _>` containers as
association lists (the key ordering of `std::map` is irrelevant here: the code
only ever looks keys up, mutates single entries, and tests emptiness), machine
durations as `Nat` milliseconds/seconds, the 32-bit `unsigned` counters as
`Nat` reduced modulo `2 ^ 32` wherever they are incremented, and the `double`
rate as `ℚ` (the claims concern the zero guard and the quotient, not rounding).
-/

namespace SensorRateMonitor

/-- Association-list model of `std::map<std::string, α>`. -/
abbrev StrMap (α : Type) := List (String × α)

/-- `m.find(k)`-style lookup. -/
def mapFind {α : Type} (m : StrMap α) (k : String) : Option α :=
  match m with
  | [] => none
  | (k', v) :: rest => if k' = k then some v else mapFind rest k

/-- `m[k] = v` on `std::map`: assign if present, insert otherwise. -/
def mapInsert {α : Type} (m : StrMap α) (k : String) (v : α) : StrMap α :=
  match m with
  | [] => [(k, v)]
  | (k', v') :: rest => if k' = k then (k, v) :: rest else (k', v') :: mapInsert rest k v

/-- The number of values of the 32-bit C++ `unsigned` that
`std::map<std::string, unsigned>` stores: its arithmetic is modulo `2 ^ 32`. -/
def u32 : Nat := 2 ^ 32

/-- `m[k]++` on `std::map<std::string, unsigned>`: `operator[]` default-constructs
`0` for an absent key, then the 32-bit unsigned value is incremented, wrapping
modulo `2 ^ 32`. -/
def mapIncr (m : StrMap Nat) (k : String) : StrMap Nat :=
  match m with
  | [] => [(k, (0 + 1) % u32)]
  | (k', v) :: rest =>
      if k' = k then (k, (v + 1) % u32) :: rest else (k', v) :: mapIncr rest k

/-- A read through `m[k]` (`operator[]`): returns the stored value, but
inserts a default-constructed `0` entry when the key is absent — the crucial
side effect of line 139 of the source. Returns the value read and the
(possibly grown) map. -/
def mapIndexRead (m : StrMap Nat) (k : String) : Nat × StrMap Nat :=
  match mapFind m k with
  | some v => (v, m)
  | none => (0, mapInsert m k 0)

/-- `monitored_messages` from the source (lines 89–94). -/
def monitored_messages : List String :=
  ["OPTICAL_FLOW", "OPTICAL_FLOW_RAD", "DISTANCE_SENSOR", "HEARTBEAT"]

/-- The part of `MavlinkDirect::MavlinkMessage` the example reads. -/
structure MavlinkMessage where
  message_name : String
deriving DecidableEq

/-- The shared statistics guarded by `stats_mutex` (lines 83–84). -/
structure Stats where
  message_counts : StrMap Nat
  last_message_time : StrMap Nat
deriving DecidableEq

/-- Both maps start empty. -/
def initStats : Stats := ⟨[], []⟩

/-- The whitelist membership test of the callback (lines 102–108): a linear
scan comparing `message.message_name` with each monitored name. -/
def is_monitored (name : String) : Bool :=
  monitored_messages.any fun msg_name => name = msg_name

/-- The subscription callback body (lines 98–114): under the mutex, if the
name is monitored, increment its count and set its last-seen time to `now`
(milliseconds on the steady clock); otherwise do nothing. -/
def on_message (st : Stats) (message : MavlinkMessage) (now : Nat) : Stats :=
  if is_monitored message.message_name then
    { message_counts := mapIncr st.message_counts message.message_name
      last_message_time := mapInsert st.last_message_time message.message_name now }
  else
    st

/-- `(elapsed > 0) ? double(count)/elapsed : 0.0` (line 140), with the
`double` quotient modelled exactly in `ℚ`. -/
def messages_per_second (count : Nat) (elapsed : Nat) : ℚ :=
  if elapsed > 0 then (count : ℚ) / (elapsed : ℚ) else 0

/-- Lines 148–152: format a nonnegative millisecond delta. -/
def format_delta (time_since_last : Nat) : String :=
  if time_since_last < 1000 then
    toString time_since_last ++ " ms ago"
  else
    toString (time_since_last / 1000) ++ " s ago"

/-- Lines 143–153: `"Never"` when the name was never seen, otherwise the
formatted delta. -/
def format_last_seen (delta : Option Nat) : String :=
  match delta with
  | none => "Never"
  | some d => format_delta d

/-- One row of the rendered table. -/
structure Row where
  name : String
  count : Nat
  rate : ℚ
  last_seen : String
deriving DecidableEq

/-- Lines 138–160, one iteration: read the count through `operator[]`
(inserting `0` if absent), compute the rate, and format recency from
`last_message_time` (read via `find`, so no insertion there). -/
def render_row (last_time : StrMap Nat) (counts : StrMap Nat)
    (current_time : Nat) (elapsed : Nat) (msg_name : String) : Row × StrMap Nat :=
  let read := mapIndexRead counts msg_name
  let last_seen :=
    match mapFind last_time msg_name with
    | some t => format_delta (current_time - t)
    | none => "Never"
  (⟨msg_name, read.1, messages_per_second read.1 elapsed, last_seen⟩, read.2)

/-- The row loop of lines 138–160, threading the mutated counts map. -/
def render_rows (st : Stats) (current_time : Nat) (elapsed : Nat) :
    List Row × StrMap Nat :=
  monitored_messages.foldl
    (fun acc msg_name =>
      let step := render_row st.last_message_time acc.2 current_time elapsed msg_name
      (acc.1 ++ [step.1], step.2))
    ([], st.message_counts)

/-- What one render tick prints (besides the fixed table frame). -/
structure RenderOutput where
  elapsed : Nat
  rows : List Row
  warning : Bool
deriving DecidableEq

/-- One body of the render loop, lines 119–170 (under the mutex): render the
four rows, then test `message_counts.empty()` — after the row loop has already
run its `operator[]` reads — to decide the warning (lines 165–168).  Returns
the output and the post-tick shared state. -/
def render_tick (st : Stats) (current_time : Nat) (elapsed : Nat) :
    RenderOutput × Stats :=
  let rendered := render_rows st current_time elapsed
  (⟨elapsed, rendered.1, rendered.2.isEmpty⟩,
   { st with message_counts := rendered.2 })

/-- An observable step of the monitoring session: either the bus delivers a
message to the callback, or the render loop runs one tick. -/
inductive Event where
  | msg (message : MavlinkMessage) (now : Nat)
  | tick (current_time : Nat) (elapsed : Nat)
deriving DecidableEq

/-- `true` exactly on render ticks. -/
def Event.isTick : Event → Bool
  | .msg _ _ => false
  | .tick _ _ => true

/-- `true` when the event is a delivery that the callback records for name
`n`: a message whose name equals `n` and is in the whitelist. -/
def recordsName (e : Event) (n : String) : Bool :=
  match e with
  | .msg message _ => message.message_name = n && is_monitored message.message_name
  | .tick _ _ => false

/-- The effect of one event on the shared state (the mutex serialises the two
contexts, so a session is an interleaving, i.e. a list of events). -/
def stepE (st : Stats) (e : Event) : Stats :=
  match e with
  | .msg message now => on_message st message now
  | .tick current_time elapsed => (render_tick st current_time elapsed).2

/-- Run a whole interleaving. -/
def runE (st : Stats) (evs : List Event) : Stats :=
  evs.foldl stepE st

/-- Run a sequence of callback deliveries only (message, arrival time). -/
def runMsgs (st : Stats) (ms : List (MavlinkMessage × Nat)) : Stats :=
  ms.foldl (fun s p => on_message s p.1 p.2) st

/-- The count the dashboard would show for a name: the stored value, absence
meaning zero. -/
def countOf (st : Stats) (n : String) : Nat :=
  (mapFind st.message_counts n).getD 0

/-- The effect of the row loop on the counts map alone: one `operator[]` read
per monitored name, in order. -/
def tickCounts (counts : StrMap Nat) (names : List String) : StrMap Nat :=
  names.foldl (fun cm n => (mapIndexRead cm n).2) counts

/-- The monitoring phase of the session, or the program having returned an
exit code. -/
inductive Phase where
  | monitoring (st : Stats)
  | exited (code : Nat)
deriving DecidableEq

/-- `true` exactly when the program has returned. -/
def Phase.isExited : Phase → Bool
  | .monitoring _ => false
  | .exited _ => true

/-- The condition of the render loop, line 118: `while (true)`. -/
def render_loop_cond : Bool := true

/-- One observable step of the session while monitoring: the loop condition is
tested; were it ever false, control would fall through to the unsubscribe call
and `return 0` (lines 173–177); while it holds, the body has no `break` or
`return`, so the state merely evolves by the event. -/
def session_step (p : Phase) (e : Event) : Phase :=
  match p with
  | .monitoring st =>
      if render_loop_cond then .monitoring (stepE st e) else .exited 0
  | .exited code => .exited code

/-- Run the session from a phase through a list of events. -/
def runSession (p : Phase) (evs : List Event) : Phase :=
  evs.foldl session_step p

/-- How startup continues after the readiness wait (lines 60–77). -/
inductive StartupOutcome where
  | proceedToMonitoring (announced : Bool)
  | exitNoDevice (code : Nat)
deriving DecidableEq

/-- Line 69: the additional grace wait, `sleep_for(std::chrono::seconds(2))`. -/
def grace_wait_s : Nat := 2

/-- Lines 60–77: pick the first system if one exists after the wait loop;
otherwise sleep the 2-second grace period and re-check; if there is still no
system, print the warning and `return 1`.  Inputs are the sizes of
`mavsdk.systems()` observed at the two checks. -/
def select_system (systems_after_wait : Nat) (systems_after_grace : Nat) :
    StartupOutcome :=
  if systems_after_wait > 0 then .proceedToMonitoring true
  else if systems_after_grace > 0 then .proceedToMonitoring false
  else .exitNoDevice 1

/-- Line 50: the poll interval of the readiness wait, in milliseconds. -/
def wait_poll_ms : Nat := 100

/-- Lines 51–52: elapsed time after `polls` sleeps of the wait loop, as
`duration_cast<seconds>` — truncating integer seconds. -/
def wait_elapsed_s (polls : Nat) : Nat :=
  polls * wait_poll_ms / 1000

/-- Line 53: after a poll, the wait loop abandons waiting (logs the note and
breaks) exactly when `elapsed > 10`. -/
def wait_breaks (polls : Nat) : Bool :=
  wait_elapsed_s polls > 10

/-- The actions of one render-loop iteration (lines 118–171), in program
order.  `lockAcquire` is the `lock_guard` construction on `stats_mutex`
(line 121) and `lockRelease` its destruction at the end of the iteration
scope (line 171); `formatWrite` covers all the table formatting and console
writes of lines 128–168. -/
inductive TickAction where
  | sleepTick
  | lockAcquire
  | readClock
  | formatWrite
  | flushOutput
  | lockRelease
deriving DecidableEq

/-- The iteration body of the render loop, transliterated in statement order
from lines 119–171. -/
def render_tick_actions : List TickAction :=
  [.sleepTick, .lockAcquire, .readClock, .formatWrite, .flushOutput, .lockRelease]

/-- Whether the mutex is held when the action at index `i` runs: more
acquisitions than releases strictly before it. -/
def lockHeldAt (acts : List TickAction) (i : Nat) : Bool :=
  (acts.take i).count TickAction.lockRelease < (acts.take i).count TickAction.lockAcquire

/-- Every formatting/write action runs with the mutex NOT held (the property
the specification requires of the renderer). -/
def formats_only_outside_lock (acts : List TickAction) : Bool :=
  (List.range acts.length).all fun i =>
    !(acts.getD i .sleepTick == .formatWrite) || !lockHeldAt acts i

/-- Every formatting/write action runs with the mutex held. -/
def formats_only_inside_lock (acts : List TickAction) : Bool :=
  (List.range acts.length).all fun i =>
    !(acts.getD i .sleepTick == .formatWrite) || lockHeldAt acts i

theorem mapFind_mapInsert_self {α : Type} (m : StrMap α) (k : String) (v : α) :
    mapFind (mapInsert m k v) k = some v := by
  induction m with
  | nil => simp [mapInsert, mapFind]
  | cons hd tl ih =>
    obtain ⟨k', v'⟩ := hd
    by_cases h : k' = k
    · simp [mapInsert, mapFind, h]
    · simp [mapInsert, mapFind, h, ih]

theorem mapFind_mapInsert_ne {α : Type} (m : StrMap α) (k k' : String) (v : α)
    (h : k ≠ k') : mapFind (mapInsert m k v) k' = mapFind m k' := by
  induction m with
  | nil => simp [mapInsert, mapFind, h]
  | cons hd tl ih =>
    obtain ⟨k0, v0⟩ := hd
    by_cases h0 : k0 = k
    · subst h0
      simp [mapInsert, mapFind, h]
    · simp only [mapInsert, if_neg h0, mapFind]
      by_cases h1 : k0 = k'
      · simp [h1]
      · simp [h1, ih]

theorem mapFind_mapIncr_self (m : StrMap Nat) (k : String) :
    mapFind (mapIncr m k) k = some (((mapFind m k).getD 0 + 1) % u32) := by
  induction m with
  | nil => simp [mapIncr, mapFind]
  | cons hd tl ih =>
    obtain ⟨k', v⟩ := hd
    by_cases h : k' = k
    · simp [mapIncr, mapFind, h]
    · simp [mapIncr, mapFind, h, ih]

theorem mapFind_mapIncr_ne (m : StrMap Nat) (k k' : String) (h : k ≠ k') :
    mapFind (mapIncr m k) k' = mapFind m k' := by
  induction m with
  | nil => simp [mapIncr, mapFind, h]
  | cons hd tl ih =>
    obtain ⟨k0, v0⟩ := hd
    by_cases h0 : k0 = k
    · subst h0
      simp [mapIncr, mapFind, h]
    · simp only [mapIncr, if_neg h0, mapFind]
      by_cases h1 : k0 = k'
      · simp [h1]
      · simp [h1, ih]

theorem mapIndexRead_fst (m : StrMap Nat) (k : String) :
    (mapIndexRead m k).1 = (mapFind m k).getD 0 := by
  unfold mapIndexRead
  cases h : mapFind m k <;> simp

theorem mapFind_mapIndexRead_self (m : StrMap Nat) (k : String) :
    mapFind (mapIndexRead m k).2 k = some ((mapFind m k).getD 0) := by
  unfold mapIndexRead
  cases h : mapFind m k with
  | none => simp [mapFind_mapInsert_self]
  | some v => simp [h]

theorem mapFind_mapIndexRead_ne (m : StrMap Nat) (k k' : String) (h : k ≠ k') :
    mapFind (mapIndexRead m k).2 k' = mapFind m k' := by
  unfold mapIndexRead
  cases hf : mapFind m k with
  | none => simp [mapFind_mapInsert_ne _ _ _ _ h]
  | some v => simp

theorem mapFind_tickCounts (names : List String) (counts : StrMap Nat) (k : String) :
    mapFind (tickCounts counts names) k
      = (mapFind counts k).or (if k ∈ names then some 0 else none) := by
  induction names generalizing counts with
  | nil => simp [tickCounts]
  | cons n ns ih =>
    show mapFind (tickCounts (mapIndexRead counts n).2 ns) k = _
    rw [ih]
    by_cases h : n = k
    · subst h
      rw [mapFind_mapIndexRead_self]
      cases hf : mapFind counts n <;> simp [hf]
    · rw [mapFind_mapIndexRead_ne _ _ _ h]
      have h' : k ≠ n := fun hk => h hk.symm
      by_cases hm : k ∈ ns
      · simp [List.mem_cons, hm]
      · simp [List.mem_cons, hm, h']

theorem getD_mapFind_tickCounts (names : List String) (counts : StrMap Nat) (k : String) :
    (mapFind (tickCounts counts names) k).getD 0 = (mapFind counts k).getD 0 := by
  rw [mapFind_tickCounts]
  cases hf : mapFind counts k
  · by_cases h : k ∈ names <;> simp [h]
  · simp

theorem tickCounts_ne_nil (counts : StrMap Nat) :
    tickCounts counts monitored_messages ≠ [] := by
  intro hnil
  have h := mapFind_tickCounts monitored_messages counts "HEARTBEAT"
  rw [hnil] at h
  simp only [mapFind] at h
  cases hf : mapFind counts "HEARTBEAT" with
  | none =>
    rw [hf] at h
    simp [monitored_messages] at h
  | some v => rw [hf] at h; simp at h

theorem rowfold_snd (lt : StrMap Nat) (current_time elapsed : Nat) :
    ∀ (names : List String) (rows : List Row) (cm : StrMap Nat),
      (names.foldl
        (fun acc msg_name =>
          let step := render_row lt acc.2 current_time elapsed msg_name
          (acc.1 ++ [step.1], step.2)) (rows, cm)).2
        = tickCounts cm names := by
  intro names
  induction names with
  | nil => intro rows cm; simp [tickCounts]
  | cons n ns ih =>
    intro rows cm
    simp only [List.foldl_cons]
    rw [ih]
    rfl

theorem render_rows_snd (st : Stats) (current_time elapsed : Nat) :
    (render_rows st current_time elapsed).2
      = tickCounts st.message_counts monitored_messages :=
  rowfold_snd st.last_message_time current_time elapsed monitored_messages [] st.message_counts

theorem is_monitored_iff (n : String) :
    is_monitored n = true ↔ n ∈ monitored_messages := by
  constructor
  · intro h
    rcases List.any_eq_true.1 h with ⟨m, hm, he⟩
    have : n = m := of_decide_eq_true he
    rwa [this]
  · intro h
    exact List.any_eq_true.2 ⟨n, h, by simp⟩

theorem countOf_stepE (st : Stats) (e : Event) (n : String) :
    countOf (stepE st e) n
      = if recordsName e n then (countOf st n + 1) % u32 else countOf st n := by
  cases e with
  | msg message now =>
    show countOf (on_message st message now) n = _
    unfold on_message recordsName
    by_cases hm : is_monitored message.message_name
    · rw [if_pos hm]
      by_cases hn : message.message_name = n
      · subst hn
        simp [countOf, mapFind_mapIncr_self, hm]
      · simp [countOf, mapFind_mapIncr_ne _ _ _ hn, hn]
    · simp [hm, countOf]
  | tick current_time elapsed =>
    have h2 : (stepE st (Event.tick current_time elapsed)).message_counts
        = tickCounts st.message_counts monitored_messages :=
      render_rows_snd st current_time elapsed
    simp only [countOf, h2, getD_mapFind_tickCounts, recordsName]
    simp

theorem countOf_stepE_lt (st : Stats) (e : Event) (n : String)
    (h : countOf st n < u32) : countOf (stepE st e) n < u32 := by
  rw [countOf_stepE]
  by_cases hr : recordsName e n
  · rw [if_pos hr]
    exact Nat.mod_lt _ (by norm_num [u32])
  · rwa [if_neg hr]

theorem countOf_runE (st : Stats) (evs : List Event) (n : String)
    (h : countOf st n < u32) :
    countOf (runE st evs) n
      = (countOf st n + evs.countP fun e => recordsName e n) % u32 := by
  induction evs generalizing st with
  | nil =>
    show countOf st n = _
    simp [Nat.mod_eq_of_lt h]
  | cons e evs ih =>
    show countOf (runE (stepE st e) evs) n = _
    rw [ih (stepE st e) (countOf_stepE_lt st e n h), countOf_stepE, List.countP_cons]
    by_cases hr : recordsName e n
    · rw [if_pos hr, Nat.mod_add_mod]
      simp only [hr, if_pos]
      congr 1
      omega
    · simp [hr]

theorem countsSome_stepE (st : Stats) (e : Event) (n : String) :
    (mapFind (stepE st e).message_counts n).isSome
      = ((mapFind st.message_counts n).isSome || recordsName e n
          || (is_monitored n && e.isTick)) := by
  cases e with
  | msg message now =>
    simp only [Event.isTick, Bool.and_false, Bool.or_false]
    show (mapFind (on_message st message now).message_counts n).isSome = _
    unfold on_message recordsName
    by_cases hm : is_monitored message.message_name
    · rw [if_pos hm]
      by_cases hn : message.message_name = n
      · subst hn
        simp [mapFind_mapIncr_self, hm]
      · simp [mapFind_mapIncr_ne _ _ _ hn, hn]
    · simp [hm]
  | tick current_time elapsed =>
    have h2 : (stepE st (Event.tick current_time elapsed)).message_counts
        = tickCounts st.message_counts monitored_messages :=
      render_rows_snd st current_time elapsed
    rw [h2, mapFind_tickCounts]
    simp only [Event.isTick, Bool.and_true, recordsName, Bool.or_false]
    by_cases hmem : n ∈ monitored_messages
    · have hb : is_monitored n = true := (is_monitored_iff n).2 hmem
      rw [if_pos hmem, hb]
      cases mapFind st.message_counts n <;> simp
    · have hb : is_monitored n = false := by
        cases hval : is_monitored n
        · rfl
        · exact absurd ((is_monitored_iff n).1 hval) hmem
      rw [if_neg hmem, hb]
      cases mapFind st.message_counts n <;> simp

theorem countsSome_runE (st : Stats) (evs : List Event) (n : String) :
    (mapFind (runE st evs).message_counts n).isSome
      = ((mapFind st.message_counts n).isSome
          || evs.any (fun e => recordsName e n)
          || (is_monitored n && evs.any Event.isTick)) := by
  induction evs generalizing st with
  | nil => simp [runE]
  | cons e evs ih =>
    show (mapFind (runE (stepE st e) evs).message_counts n).isSome = _
    rw [ih, countsSome_stepE]
    simp only [List.any_cons]
    cases (mapFind st.message_counts n).isSome <;>
      cases hre : recordsName e n <;>
      cases hmn : is_monitored n <;>
      cases het : e.isTick <;>
      cases hra : evs.any (fun e => recordsName e n) <;>
      cases hta : evs.any Event.isTick <;>
      simp

theorem lastSome_stepE (st : Stats) (e : Event) (n : String) :
    (mapFind (stepE st e).last_message_time n).isSome
      = ((mapFind st.last_message_time n).isSome || recordsName e n) := by
  cases e with
  | msg message now =>
    show (mapFind (on_message st message now).last_message_time n).isSome = _
    unfold on_message recordsName
    by_cases hm : is_monitored message.message_name
    · rw [if_pos hm]
      by_cases hn : message.message_name = n
      · subst hn
        simp [mapFind_mapInsert_self, hm]
      · simp [mapFind_mapInsert_ne _ _ _ _ hn, hn]
    · simp [hm]
  | tick current_time elapsed =>
    show (mapFind st.last_message_time n).isSome = _
    simp [recordsName]

theorem lastSome_runE (st : Stats) (evs : List Event) (n : String) :
    (mapFind (runE st evs).last_message_time n).isSome
      = ((mapFind st.last_message_time n).isSome
          || evs.any (fun e => recordsName e n)) := by
  induction evs generalizing st with
  | nil => simp [runE]
  | cons e evs ih =>
    show (mapFind (runE (stepE st e) evs).last_message_time n).isSome = _
    rw [ih, lastSome_stepE]
    simp [List.any_cons, Bool.or_assoc]

theorem runMsgs_eq_runE (st : Stats) (ms : List (MavlinkMessage × Nat)) :
    runMsgs st ms = runE st (ms.map fun p => Event.msg p.1 p.2) := by
  unfold runMsgs runE
  rw [List.foldl_map]
  rfl

theorem countP_replicate_of_pos {α : Type} (p : α → Bool) (a : α) (k : Nat)
    (h : p a = true) : (List.replicate k a).countP p = k := by
  induction k with
  | zero => rfl
  | succ k ih => simp [List.replicate_succ, List.countP_cons, h, ih]

theorem countOf_runMsgs_monitored (ms : List (MavlinkMessage × Nat)) (n : String)
    (hmem : n ∈ monitored_messages) :
    countOf (runMsgs initStats ms) n
      = (ms.countP fun p => p.1.message_name = n) % u32 := by
  have hmon : is_monitored n = true := (is_monitored_iff n).2 hmem
  have hb : countOf initStats n < u32 := by
    have h0 : countOf initStats n = 0 := rfl
    rw [h0]
    norm_num [u32]
  rw [runMsgs_eq_runE, countOf_runE _ _ _ hb, List.countP_map]
  have h0 : countOf initStats n = 0 := rfl
  rw [h0, Nat.zero_add]
  congr 1
  apply List.countP_congr
  intro p _
  have hc : recordsName (Event.msg p.1 p.2) n
      = (decide (p.1.message_name = n) && is_monitored p.1.message_name) := rfl
  have hd : recordsName (Event.msg p.1 p.2) n = decide (p.1.message_name = n) := by
    rw [hc]
    by_cases hq : p.1.message_name = n
    · rw [hq, hmon]
      simp
    · simp [hq]
  show recordsName (Event.msg p.1 p.2) n = true ↔ decide (p.1.message_name = n) = true
  rw [hd]

/-- Claim C1 (amended): for every sequence of message events delivered to the
subscription callback, the stored count of a monitored name equals the number
of delivered events whose name is string-equal to it reduced modulo `2 ^ 32`
(the counter is a 32-bit C++ `unsigned` and wraps) — exact equality for fewer
than `2 ^ 32` matching deliveries; an unmonitored name never gains a count or
last-seen entry; and an event whose name is not in the whitelist leaves the
whole aggregate state unchanged. -/
theorem C1_modular_counting (ms : List (MavlinkMessage × Nat)) (n : String) :
    (n ∈ monitored_messages →
      countOf (runMsgs initStats ms) n
        = (ms.countP fun p => p.1.message_name = n) % u32)
    ∧ (n ∉ monitored_messages →
        mapFind (runMsgs initStats ms).message_counts n = none
        ∧ mapFind (runMsgs initStats ms).last_message_time n = none)
    ∧ ∀ (st : Stats) (m : MavlinkMessage) (now : Nat),
        is_monitored m.message_name = false → on_message st m now = st := by
  have hmap : ∀ p : MavlinkMessage × Nat,
      recordsName (Event.msg p.1 p.2) n
        = (decide (p.1.message_name = n) && is_monitored p.1.message_name) := by
    intro p; rfl
  refine ⟨fun hmem => countOf_runMsgs_monitored ms n hmem, ?_, ?_⟩
  · intro hmem
    have hmon : is_monitored n = false := by
      cases hval : is_monitored n
      · rfl
      · exact absurd ((is_monitored_iff n).1 hval) hmem
    have hany : ((ms.map fun p => Event.msg p.1 p.2).any fun e => recordsName e n)
        = false := by
      rw [List.any_eq_false]
      intro e he
      rcases List.mem_map.1 he with ⟨p, _, rfl⟩
      show ¬ recordsName (Event.msg p.1 p.2) n = true
      rw [hmap]
      by_cases hq : p.1.message_name = n
      · rw [hq, hmon]
        simp
      · simp [hq]
    constructor
    · have h := countsSome_runE initStats (ms.map fun p => Event.msg p.1 p.2) n
      rw [← runMsgs_eq_runE, hany, hmon] at h
      have h0 : (mapFind initStats.message_counts n).isSome = false := rfl
      rw [h0] at h
      simp only [Bool.false_or, Bool.false_and, Bool.or_false] at h
      cases ho : mapFind (runMsgs initStats ms).message_counts n with
      | none => rfl
      | some v => rw [ho] at h; simp at h
    · have h := lastSome_runE initStats (ms.map fun p => Event.msg p.1 p.2) n
      rw [← runMsgs_eq_runE, hany] at h
      have h0 : (mapFind initStats.last_message_time n).isSome = false := rfl
      rw [h0] at h
      simp only [Bool.false_or, Bool.or_false] at h
      cases ho : mapFind (runMsgs initStats ms).last_message_time n with
      | none => rfl
      | some v => rw [ho] at h; simp at h
  · intro st m now h
    simp [on_message, h]

/-- Claim C1 fails as originally stated: after exactly `2 ^ 32` HEARTBEAT
deliveries, the 32-bit counter has wrapped — the stored count is `0`, not the
number of string-equal deliveries, which is `2 ^ 32`. -/
theorem C1_exact_count_counterexample :
    countOf (runMsgs initStats
        (List.replicate u32 (⟨"HEARTBEAT"⟩, 0))) "HEARTBEAT" = 0
    ∧ (List.replicate u32 ((⟨"HEARTBEAT"⟩ : MavlinkMessage), 0)).countP
        (fun p => p.1.message_name = "HEARTBEAT") = u32
    ∧ 0 < u32 := by
  have hrep : (List.replicate u32 ((⟨"HEARTBEAT"⟩ : MavlinkMessage), 0)).countP
      (fun p => p.1.message_name = "HEARTBEAT") = u32 :=
    countP_replicate_of_pos _ _ _ (by decide)
  refine ⟨?_, hrep, by norm_num [u32]⟩
  have hc := countOf_runMsgs_monitored
      (List.replicate u32 (⟨"HEARTBEAT"⟩, 0)) "HEARTBEAT" (by decide)
  rw [hc, hrep, Nat.mod_self]

/-- Concrete instance of `C1_modular_counting`: two HEARTBEAT deliveries and one
unmonitored VFR_HUD delivery — below the wrap, the count is exact. -/
theorem C1_modular_counting_witness :
    countOf (runMsgs initStats
        [(⟨"HEARTBEAT"⟩, 5), (⟨"VFR_HUD"⟩, 6), (⟨"HEARTBEAT"⟩, 7)]) "HEARTBEAT" = 2
    ∧ mapFind (runMsgs initStats
        [(⟨"HEARTBEAT"⟩, 5), (⟨"VFR_HUD"⟩, 6), (⟨"HEARTBEAT"⟩, 7)]).message_counts "VFR_HUD"
        = none
    ∧ on_message initStats ⟨"VFR_HUD"⟩ 6 = initStats := by
  refine ⟨?_, ?_, ?_⟩
  · have h := (C1_modular_counting
        [(⟨"HEARTBEAT"⟩, 5), (⟨"VFR_HUD"⟩, 6), (⟨"HEARTBEAT"⟩, 7)] "HEARTBEAT").1
        (by decide)
    rw [h]
    have h2 : ([(((⟨"HEARTBEAT"⟩ : MavlinkMessage), 5) : MavlinkMessage × Nat),
        (⟨"VFR_HUD"⟩, 6), (⟨"HEARTBEAT"⟩, 7)]).countP
        (fun p => p.1.message_name = "HEARTBEAT") = 2 := by decide
    rw [h2]
    norm_num [u32]
  · exact ((C1_modular_counting
        [(⟨"HEARTBEAT"⟩, 5), (⟨"VFR_HUD"⟩, 6), (⟨"HEARTBEAT"⟩, 7)] "VFR_HUD").2.1
        (by decide)).1
  · exact (C1_modular_counting [] "HEARTBEAT").2.2 initStats ⟨"VFR_HUD"⟩ 6 (by decide)

/-- Claim C2 fails on the code: `formats_only_outside_lock` is false for the
render tick's action sequence — the `lock_guard` of line 121 is still held
during the formatting and console writes of lines 128–168. -/
theorem C2_formatting_outside_lock_counterexample :
    formats_only_outside_lock render_tick_actions = false := by decide

/-- Claim C2 (amended): the renderer holds the aggregator's mutex throughout
formatting and console I/O — every `formatWrite` action of a tick runs with
the lock held, so ingestion is blocked for the whole render, not only for a
short critical section, and no unlocked snapshot copy exists. -/
theorem C2_amended_formatting_under_lock :
    formats_only_inside_lock render_tick_actions = true := by decide

/-- Claim C3 (amended): a name has an entry in the aggregate count map iff an
event with that name has been recorded, or the name is monitored and at least
one render tick has executed — the render loop's `operator[]` reads (line 139)
insert zero-count entries for every monitored name. -/
theorem C3_amended_entry_characterisation (evs : List Event) (n : String) :
    (mapFind (runE initStats evs).message_counts n).isSome
      = (evs.any (fun e => recordsName e n)
          || (is_monitored n && evs.any Event.isTick)) := by
  rw [countsSome_runE]
  have h0 : (mapFind initStats.message_counts n).isSome = false := rfl
  rw [h0, Bool.false_or]

/-- Claim C3 fails as stated: after a single render tick from the initial
state, "HEARTBEAT" has an entry in the count map although no event was ever
recorded. -/
theorem C3_entry_iff_recorded_counterexample :
    (mapFind (runE initStats [Event.tick 1 0]).message_counts "HEARTBEAT").isSome = true
    ∧ ([Event.tick 1 0].any fun e => recordsName e "HEARTBEAT") = false := by decide

/-- Claim C4 (code bug): the warning of lines 165–168 is never printed — on
every tick, including the first tick of a session that has received nothing,
the row loop's `operator[]` reads have already inserted entries for all four
monitored names, so `message_counts.empty()` is false at the check. -/
theorem C4_warning_dead_code :
    (∀ (st : Stats) (current_time elapsed : Nat),
        (render_tick st current_time elapsed).1.warning = false)
    ∧ (render_tick initStats 0 0).1.warning = false
    ∧ initStats.message_counts = [] := by
  refine ⟨?_, ?_, rfl⟩
  · intro st current_time elapsed
    show ((render_rows st current_time elapsed).2).isEmpty = false
    rw [render_rows_snd]
    cases h : tickCounts st.message_counts monitored_messages with
    | nil => exact absurd h (tickCounts_ne_nil _)
    | cons a l => rfl
  · decide

/-- Claim C5: once the render loop starts the session stays in the monitoring
phase for every finite sequence of events, so the unsubscribe call and the
`return 0` after the loop (lines 173–177) are unreachable. -/
theorem C5_monitoring_never_exits (st : Stats) (evs : List Event) :
    (runSession (Phase.monitoring st) evs).isExited = false := by
  induction evs generalizing st with
  | nil => rfl
  | cons e evs ih =>
    show (runSession (session_step (Phase.monitoring st) e) evs).isExited = false
    exact ih (stepE st e)

/-- Claim C6: when the readiness wait ends with no system (the loop having
abandoned the wait) and the additional 2-second grace wait still finds none,
startup returns exit code 1 — in particular monitoring is not entered. -/
theorem C6_no_device_after_grace_exits_nonzero :
    select_system 0 0 = StartupOutcome.exitNoDevice 1
    ∧ (∀ announced, select_system 0 0 ≠ StartupOutcome.proceedToMonitoring announced)
    ∧ grace_wait_s = 2
    ∧ wait_breaks 110 = true := by
  refine ⟨rfl, ?_, rfl, by decide⟩
  intro announced h
  exact StartupOutcome.noConfusion h

/-- Claim C7 fails as stated: at the 101st poll, 10.1 seconds — strictly more
than the 10-second bound — have elapsed with no system present, yet the wait
loop does not break, because the truncated elapsed seconds are 10, not > 10. -/
theorem C7_ten_second_bound_counterexample :
    101 * wait_poll_ms > 10 * 1000 ∧ wait_breaks 101 = false := by decide

/-- Claim C7 (amended): polling every 100 ms, the wait loop abandons the wait
exactly when the truncated elapsed seconds strictly exceed 10, which first
happens at the 110th poll — after 11 seconds of waiting, not 10. -/
theorem C7_amended_wait_bound (polls : Nat) :
    wait_breaks polls = true ↔ 110 ≤ polls := by
  simp only [wait_breaks, wait_elapsed_s, wait_poll_ms, gt_iff_lt, decide_eq_true_eq]
  omega

/-- Claim C8: a seen name's recency renders as "<delta> ms ago" when the
millisecond delta is below 1000 and as "<delta/1000> s ago" (truncating
division) otherwise; 999 ms renders "999 ms ago", 1000 ms renders "1 s ago",
and a never-seen name renders "Never" — stated both for the formatting
function and for the rendered rows of an actual tick. -/
theorem C8_recency_formatting :
    (∀ delta : Nat, delta < 1000 →
        format_last_seen (some delta) = toString delta ++ " ms ago")
    ∧ (∀ delta : Nat, 1000 ≤ delta →
        format_last_seen (some delta) = toString (delta / 1000) ++ " s ago")
    ∧ format_last_seen (some 999) = "999 ms ago"
    ∧ format_last_seen (some 1000) = "1 s ago"
    ∧ format_last_seen none = "Never"
    ∧ ((render_tick (runE initStats [Event.msg ⟨"HEARTBEAT"⟩ 500]) 1499 1).1.rows.map
        Row.last_seen) = ["Never", "Never", "Never", "999 ms ago"]
    ∧ ((render_tick (runE initStats [Event.msg ⟨"HEARTBEAT"⟩ 500]) 1500 1).1.rows.map
        Row.last_seen) = ["Never", "Never", "Never", "1 s ago"] := by
  refine ⟨?_, ?_, by decide, by decide, rfl, by decide, by decide⟩
  · intro delta h
    simp [format_last_seen, format_delta, h]
  · intro delta h
    simp [format_last_seen, format_delta, Nat.not_lt.2 h]

/-- Concrete instance of `C8_recency_formatting` at deltas 7 and 2500. -/
theorem C8_recency_formatting_witness :
    format_last_seen (some 7) = toString 7 ++ " ms ago"
    ∧ format_last_seen (some 2500) = toString (2500 / 1000) ++ " s ago" :=
  ⟨C8_recency_formatting.1 7 (by decide), C8_recency_formatting.2.1 2500 (by decide)⟩

/-- Claim C9: the displayed rate is count divided by elapsed seconds when the
elapsed time is strictly positive and 0 when it is zero, so the division is
always guarded; with count 25 and elapsed 10 the rate is 2.5. -/
theorem C9_rate_division_guarded (count elapsed : Nat) :
    (elapsed = 0 → messages_per_second count elapsed = 0)
    ∧ (0 < elapsed →
        messages_per_second count elapsed = (count : ℚ) / (elapsed : ℚ))
    ∧ messages_per_second 25 10 = 5 / 2 := by
  refine ⟨?_, ?_, by norm_num [messages_per_second]⟩
  · intro h
    subst h
    simp [messages_per_second]
  · intro h
    simp [messages_per_second, h]

/-- Concrete instance of `C9_rate_division_guarded` at elapsed 0 and 10. -/
theorem C9_rate_division_guarded_witness :
    messages_per_second 3 0 = 0
    ∧ messages_per_second 25 10 = (25 : ℚ) / 10 :=
  ⟨(C9_rate_division_guarded 3 0).1 rfl,
   (C9_rate_division_guarded 25 10).2.1 (by norm_num)⟩

/-- Claim C10 (amended): in every state reachable by an interleaving of
deliveries and render ticks, a name has a recorded last-seen time iff at least
one event has been recorded for it — recording sets both together and ticks
create only zero-count entries without a last-seen time; since the 32-bit
counter wraps, "count at least one" is an equivalent characterisation only
while fewer than `2 ^ 32` events have been recorded for the name. -/
theorem C10_lastseen_iff_recorded (evs : List Event) (n : String) :
    ((mapFind (runE initStats evs).last_message_time n).isSome
        = evs.any fun e => recordsName e n)
    ∧ ((evs.countP fun e => recordsName e n) < u32 →
        ((mapFind (runE initStats evs).last_message_time n).isSome = true
          ↔ 1 ≤ countOf (runE initStats evs) n)) := by
  have hL : (mapFind (runE initStats evs).last_message_time n).isSome
      = evs.any fun e => recordsName e n := by
    rw [lastSome_runE]
    have h0 : (mapFind initStats.last_message_time n).isSome = false := rfl
    rw [h0, Bool.false_or]
  refine ⟨hL, ?_⟩
  intro hlt
  have h1 : countOf initStats n = 0 := rfl
  have hb : countOf initStats n < u32 := by
    rw [h1]
    norm_num [u32]
  rw [hL, countOf_runE _ _ _ hb, h1, Nat.zero_add, Nat.mod_eq_of_lt hlt]
  constructor
  · intro h
    rcases List.any_eq_true.1 h with ⟨e, he, hr⟩
    have hpos : 0 < evs.countP fun e => recordsName e n :=
      List.countP_pos_iff.2 ⟨e, he, hr⟩
    omega
  · intro h
    have hpos : 0 < evs.countP fun e => recordsName e n := by omega
    rcases List.countP_pos_iff.1 hpos with ⟨e, he, hr⟩
    exact List.any_eq_true.2 ⟨e, he, hr⟩

/-- Claim C10 fails as originally stated: after exactly `2 ^ 32` recorded
HEARTBEAT deliveries the wrapped 32-bit count is `0`, yet the last-seen map
does hold an entry for "HEARTBEAT". -/
theorem C10_wrap_counterexample :
    (mapFind (runE initStats
        (List.replicate u32 (Event.msg ⟨"HEARTBEAT"⟩ 0))).last_message_time
        "HEARTBEAT").isSome = true
    ∧ countOf (runE initStats
        (List.replicate u32 (Event.msg ⟨"HEARTBEAT"⟩ 0))) "HEARTBEAT" = 0 := by
  constructor
  · rw [lastSome_runE]
    have hany : ((List.replicate u32 (Event.msg (⟨"HEARTBEAT"⟩ : MavlinkMessage) 0)).any
        fun e => recordsName e "HEARTBEAT") = true := by
      refine List.any_eq_true.2 ⟨Event.msg ⟨"HEARTBEAT"⟩ 0, ?_, by decide⟩
      exact List.mem_replicate.2 ⟨by norm_num [u32], rfl⟩
    rw [hany]
    simp
  · have h1 : countOf initStats "HEARTBEAT" = 0 := rfl
    have hb : countOf initStats "HEARTBEAT" < u32 := by
      rw [h1]
      norm_num [u32]
    rw [countOf_runE _ _ _ hb, h1, Nat.zero_add,
      countP_replicate_of_pos _ _ _ (by decide), Nat.mod_self]

end SensorRateMonitor
